import Mathlib

/-!
Verification development for the RAPID RESCUE emergency-detection and
escalation core.

The definitions below are a shallow embedding of the client logic in
`src/src/App.tsx` (jerk detection, safety-check countdown, escalation) and of
the collaborators it calls: `findNearbyHospitals` from
`src/services/geminiService.ts` and the `POST /api/incidents` route of the
Express server (which stamps `status = "PENDING"` on every created incident).

Modelling conventions:
* JavaScript numbers carrying sensor values and coordinates are modelled as
  rationals (`ℚ`); `Date.now()` timestamps as integers (`ℤ`, milliseconds).
* The check `Math.sqrt(x*x + y*y + z*z) > 25` is embedded as the equivalent
  comparison `x^2 + y^2 + z^2 > 625` (both sides of the source comparison are
  nonnegative, so squaring is an order isomorphism; the theorem
  `sqrt_gt_25_iff` below records the equivalence against `Real.sqrt`).
* `setInterval` / `clearInterval` are modelled explicitly: the state carries
  the set of live interval ids, a fresh-id counter, and the `timerRef` cell.
  A tick is an event carrying the id of the interval that fired; a tick of an
  interval that is no longer live is a no-op.
* React `useState` updates are modelled as synchronous record updates on a
  single state, matching the single-threaded event-driven model of the spec.
* The observable side effects of `triggerEmergency` (the simulated SMS batch,
  the simulated ambulance alerts, the `POST /api/incidents` call) are
  accumulated in ghost log fields of the state, as is the list of timestamps
  at which the jerk detector fired (`jerkLog`).
-/

attribute [local semireducible] Rat.add Rat.mul Rat.sub Rat.inv Rat.ofScientific

namespace RapidRescue

/-- Acceleration components of a `devicemotion` event; each component may be
absent (`null`), mirroring `acc.x`, `acc.y`, `acc.z` in `handleMotion`. -/
structure Accel where
  x : Option ℚ
  y : Option ℚ
  z : Option ℚ
deriving DecidableEq

/-- A `devicemotion` event: `accelerationIncludingGravity` may be `null`. -/
structure MotionEvent where
  accelerationIncludingGravity : Option Accel
deriving DecidableEq

/-- One hospital link as produced by `findNearbyHospitals`. -/
structure HospitalLink where
  title : String
  uri : String
  phone : String
deriving DecidableEq

/-- Result of the hospital lookup: free text plus links. -/
structure LookupResult where
  text : String
  links : List HospitalLink
deriving DecidableEq

/-- One grounding chunk of the Gemini response (`chunk.maps` fields). -/
structure GroundingChunk where
  mapsUri : Option String
  mapsTitle : String
  mapsPhone : Option String
deriving DecidableEq

/-- The parts of the Gemini response read by `findNearbyHospitals`. -/
structure GenResponse where
  text : Option String
  chunks : List GroundingChunk
deriving DecidableEq

/-- JavaScript `s || d` for strings: `null`/`undefined` and `""` are falsy. -/
def jsStr (o : Option String) (d : String) : String :=
  match o with
  | none => d
  | some t => if t = "" then d else t

/-- Shallow embedding of `findNearbyHospitals` in
`src/services/geminiService.ts`.  The argument is the outcome of the awaited
`ai.models.generateContent` call: `some response` for a successful response,
`none` for any internal failure (the `catch` branch of the source). -/
def findNearbyHospitals (outcome : Option GenResponse) : LookupResult :=
  match outcome with
  | some response =>
      { text := jsStr response.text "No hospital information found."
        links := response.chunks.filterMap fun chunk =>
          match chunk.mapsUri with
          | some uri =>
              if uri = "" then none
              else some { title := chunk.mapsTitle
                          uri := uri
                          phone := jsStr chunk.mapsPhone "N/A" }
          | none => none }
  | none =>
      { text := "Could not retrieve hospital information due to an error."
        links := [] }

/-- An emergency contact (read-only from the core's perspective). -/
structure Contact where
  id : ℕ
  name : String
  phone : String
  email : String
deriving DecidableEq

/-- The row inserted by `POST /api/incidents`; the server stamps
`status = "PENDING"`. -/
structure IncidentRow where
  location_lat : ℚ
  location_lng : ℚ
  status : String
  details : String
deriving DecidableEq

/-- One simulated SMS to a contact (`SENDING SMS TO CONTACTS` log entry);
`toPhone` is the `to` field of the logged object. -/
structure Sms where
  toPhone : String
  message : String
deriving DecidableEq

/-- One simulated ambulance request to a hospital
(`ALERTING HOSPITALS FOR AMBULANCE` log entry). -/
structure AmbulanceAlert where
  hospital : String
  phone : String
  message : String
deriving DecidableEq

/-- The environment of one session: the collaborators' responses.
`geoFix` is what `navigator.geolocation.getCurrentPosition` resolves to and
`lookup` is what the awaited `findNearbyHospitals` call returns. -/
structure Env where
  userName : String
  contacts : List Contact
  geoFix : ℚ × ℚ
  lookup : LookupResult

/-- The mutable session state of `App` that the core reads and writes,
together with ghost logs of the observable side effects. -/
structure AppState where
  isMonitoring : Bool
  showSafetyCheck : Bool
  countdown : ℕ
  location : Option (ℚ × ℚ)
  lastJerk : ℤ
  emergencyTriggered : Bool
  hospitalInfo : String
  hospitalLinks : List HospitalLink
  timerRef : Option ℕ
  liveTimers : List ℕ
  nextTimerId : ℕ
  escalations : ℕ
  smsSent : List Sms
  ambulanceAlerts : List AmbulanceAlert
  incidents : List IncidentRow
  jerkLog : List ℤ
deriving DecidableEq

/-- Initial state: the `useState` initial values of `App`
(`countdown` starts at 60, `lastJerk` at 0, no timer). -/
def initState : AppState :=
  { isMonitoring := false
    showSafetyCheck := false
    countdown := 60
    location := none
    lastJerk := 0
    emergencyTriggered := false
    hospitalInfo := ""
    hospitalLinks := []
    timerRef := none
    liveTimers := []
    nextTimerId := 0
    escalations := 0
    smsSent := []
    ambulanceAlerts := []
    incidents := []
    jerkLog := [] }

/-- `if (timerRef.current) clearInterval(timerRef.current)`: the interval the
ref points to stops being live; the ref itself is never nulled by the app. -/
def clearTimerRef (s : AppState) : AppState :=
  { s with liveTimers :=
      match s.timerRef with
      | none => s.liveTimers
      | some id => s.liveTimers.erase id }

/-- `timerRef.current = setInterval(...)`: a fresh interval becomes live and
the ref is pointed at it. -/
def setNewInterval (s : AppState) : AppState :=
  { s with liveTimers := s.nextTimerId :: s.liveTimers
           timerRef := some s.nextTimerId
           nextTimerId := s.nextTimerId + 1 }

/-- The Google-Maps link built in `triggerEmergency`. -/
def locationLink (lat lng : ℚ) : String :=
  "https://www.google.com/maps?q=" ++ toString lat ++ "," ++ toString lng

/-- JavaScript `.toUpperCase()`: upper-case every character.  This is
`String.map Char.toUpper` restated over the underlying character list so
that it evaluates by kernel reduction. -/
def strToUpper (s : String) : String :=
  String.mk (s.data.map Char.toUpper)

/-- The alert message sent to contacts (embeds the upper-cased user name). -/
def emergencyMessage (userName : String) (lat lng : ℚ) : String :=
  strToUpper userName ++ " IS IN EMERGENCY. Location: " ++ locationLink lat lng

/-- The ambulance-request message sent per hospital link. -/
def ambulanceMessage (userName : String) (lat lng : ℚ) : String :=
  "EMERGENCY: Accident detected at " ++ locationLink lat lng ++
    ". Ambulance requested for " ++ userName ++ "."

/-- The `details` field of the incident posted to `/api/incidents`:
the formatted message and the hospital-lookup text concatenated. -/
def incidentDetails (userName : String) (lat lng : ℚ) (lookupText : String) :
    String :=
  ("Emergency triggered for " ++ userName ++ ". " ++
      emergencyMessage userName lat lng ++ ". Nearby hospitals: ") ++
    lookupText

/-- Shallow embedding of `triggerEmergency`: shows the triggered screen,
hides the safety-check modal, resolves coordinates (captured location if
present, otherwise a fresh geolocation fix), stores the hospital-lookup
result, formats one SMS per contact and one ambulance alert per hospital
link, and posts exactly one incident (stamped `PENDING` by the server).
Note that it does NOT clear the countdown interval. -/
def triggerEmergency (env : Env) (s : AppState) : AppState :=
  let p := s.location.getD env.geoFix
  let lat := p.1
  let lng := p.2
  let result := env.lookup
  let msg := emergencyMessage env.userName lat lng
  { s with
    emergencyTriggered := true
    showSafetyCheck := false
    location := some p
    hospitalInfo := result.text
    hospitalLinks := result.links
    smsSent := s.smsSent ++ env.contacts.map fun c =>
      { toPhone := c.phone, message := msg }
    ambulanceAlerts := s.ambulanceAlerts ++ result.links.map fun h =>
      { hospital := h.title
        phone := h.phone
        message := ambulanceMessage env.userName lat lng }
    incidents := s.incidents ++
      [{ location_lat := lat
         location_lng := lng
         status := "PENDING"
         details := incidentDetails env.userName lat lng result.text }]
    escalations := s.escalations + 1 }

/-- Shallow embedding of `triggerSafetyCheck`: show the modal, reset the
countdown to 60, issue the (asynchronous) location request, clear any
interval the ref points to, and start a fresh 1-second interval. -/
def triggerSafetyCheck (s : AppState) : AppState :=
  setNewInterval (clearTimerRef { s with showSafetyCheck := true, countdown := 60 })

/-- Shallow embedding of `handleIAmSafe`: hide the modal and clear the
interval the ref points to.  `lastJerk` is untouched. -/
def handleIAmSafe (s : AppState) : AppState :=
  clearTimerRef { s with showSafetyCheck := false }

/-- The body of the interval callback in `triggerSafetyCheck`: if the
countdown would go below 1, clear the interval, invoke `triggerEmergency` and
set the counter to 0; otherwise decrement by one. -/
def tickBody (env : Env) (s : AppState) : AppState :=
  if s.countdown ≤ 1 then
    { triggerEmergency env (clearTimerRef s) with countdown := 0 }
  else
    { s with countdown := s.countdown - 1 }

/-- Squared magnitude of an acceleration sample. -/
def magnitudeSq (ax ay az : ℚ) : ℚ := ax ^ 2 + ay ^ 2 + az ^ 2

/-- Shallow embedding of `handleMotion`: registered only while monitoring;
bails out when `accelerationIncludingGravity` is null; treats absent
components as 0; fires when the magnitude exceeds 25 m/s²
(equivalently, squared magnitude exceeds 625) and the 5000 ms cooldown since
`lastJerk` has elapsed.  On firing it records the time, updates `lastJerk`
and starts the safety check. -/
def handleMotion (now : ℤ) (ev : MotionEvent) (s : AppState) : AppState :=
  if s.isMonitoring then
    match ev.accelerationIncludingGravity with
    | none => s
    | some acc =>
        let ax := acc.x.getD 0
        let ay := acc.y.getD 0
        let az := acc.z.getD 0
        if magnitudeSq ax ay az > 625 ∧ now - s.lastJerk > 5000 then
          triggerSafetyCheck
            { s with lastJerk := now, jerkLog := now :: s.jerkLog }
        else s
  else s

/-- The events the session reacts to. -/
inductive Event where
  | motion (now : ℤ) (ev : MotionEvent)
  | tick (id : ℕ)
  | markSafe
  | forceTrigger
  | simulate
  | geoResolved (lat lng : ℚ)
  | startMonitoring
deriving DecidableEq

/-- One step of the session.  `tick id` fires only if interval `id` is still
live; the `markSafe` ("I AM SAFE") and `forceTrigger` ("TRIGGER NOW") buttons
exist only while the safety-check modal is shown; `simulate` is the
"SIMULATE ACCIDENT (TEST)" button; `geoResolved` is the geolocation callback
resolving; `startMonitoring` models a granted permission request. -/
def step (env : Env) (s : AppState) : Event → AppState
  | .motion now ev => handleMotion now ev s
  | .tick id => if id ∈ s.liveTimers then tickBody env s else s
  | .markSafe => if s.showSafetyCheck then handleIAmSafe s else s
  | .forceTrigger => if s.showSafetyCheck then triggerEmergency env s else s
  | .simulate => triggerSafetyCheck s
  | .geoResolved lat lng => { s with location := some (lat, lng) }
  | .startMonitoring => { s with isMonitoring := true }

/-- Run a list of events from a state. -/
def run (env : Env) (s : AppState) : List Event → AppState
  | [] => s
  | e :: es => run env (step env s e) es

/-- The spec's countdown status, derived from the app state: the modal shown
means Counting; otherwise a triggered emergency means Expired, else Idle. -/
inductive Status where
  | Idle
  | Counting
  | Expired
deriving DecidableEq

/-- Derive the spec-level status from the app state. -/
def status (s : AppState) : Status :=
  if s.showSafetyCheck then .Counting
  else if s.emergencyTriggered then .Expired
  else .Idle

/-- Pattern `pat` occurs at the head of character list `l`. -/
def listStarts : List Char → List Char → Bool
  | [], _ => true
  | _ :: _, [] => false
  | a :: pat, b :: l => a = b && listStarts pat l

/-- `pat` occurs as a contiguous substring of `s`. -/
def strContains (s pat : String) : Bool :=
  (List.range (s.toList.length + 1)).any fun i =>
    listStarts pat.toList (s.toList.drop i)

/-- The timer-resource invariant: at most one interval is ever live, and any
live interval is the one the ref points to. -/
def timerInv (s : AppState) : Prop :=
  s.liveTimers.length ≤ 1 ∧ ∀ j ∈ s.liveTimers, s.timerRef = some j

instance (s : AppState) : Decidable (timerInv s) := by
  unfold timerInv; infer_instance

/-- The jerk-detector invariant: the log of fire times (newest first) has
consecutive gaps above 5000 ms and is bounded by `lastJerk`. -/
def jerkInv (s : AppState) : Prop :=
  List.Pairwise (fun a b => 5000 < a - b) s.jerkLog ∧
    ∀ x ∈ s.jerkLog, x ≤ s.lastJerk

/-- A concrete environment matching the spec's end-to-end scenario:
user Asha, single contact Asha / 9999999999, fix (12.9, 77.6), lookup
returning "3 hospitals found" with the City Hospital link. -/
def envAsha : Env :=
  { userName := "Asha"
    contacts := [{ id := 1, name := "Asha", phone := "9999999999",
                   email := "asha@example.com" }]
    geoFix := (129/10, 388/5)
    lookup := { text := "3 hospitals found"
                links := [{ title := "City Hospital", uri := "...",
                            phone := "123" }] } }

/-- A motion event with x-acceleration `q` and the other components 0. -/
def jerkEv (q : ℚ) : MotionEvent :=
  { accelerationIncludingGravity := some { x := some q, y := some 0, z := some 0 } }

/-- The TRIGGER NOW scenario: start a safety check, press TRIGGER NOW, then
let the (never cancelled) interval tick 60 times. -/
def forceTriggerRun : AppState :=
  run envAsha initState
    ([.simulate, .forceTrigger] ++ List.replicate 60 (.tick 0))

/-- The state right after pressing TRIGGER NOW, before any further tick. -/
def forceTriggerMid : AppState :=
  run envAsha initState [.simulate, .forceTrigger]

/-- A countdown started by a jerk at t = 10000 ms and ticked six times. -/
def reentryMid : AppState :=
  run envAsha initState
    ([.startMonitoring, .motion 10000 (jerkEv 30)] ++
      List.replicate 6 (.tick 0))

/-- `reentryMid` hit by a second jerk at t = 16000 ms (cooldown elapsed). -/
def reentryAfter : AppState :=
  step envAsha reentryMid (.motion 16000 (jerkEv 30))

/-- The end-to-end escalation run of the spec's scenario: safety check
started, location resolved to (12.9, 77.6), then TRIGGER NOW. -/
def ashaRun : AppState :=
  run envAsha initState
    [.simulate, .geoResolved (129/10) (388/5), .forceTrigger]

/-- The scenario environment with the hospital lookup failing internally. -/
def envLookupFail : Env :=
  { envAsha with lookup := findNearbyHospitals none }

/-- Clearing the referenced interval under the timer invariant leaves no live
interval at all. -/
theorem clearTimerRef_liveTimers_of_inv (s : AppState) (h : timerInv s) :
    (clearTimerRef s).liveTimers = [] := by
  obtain ⟨hlen, href⟩ := h
  show (match s.timerRef with
        | none => s.liveTimers
        | some id => s.liveTimers.erase id) = []
  cases hl : s.liveTimers with
  | nil => cases s.timerRef <;> simp [hl]
  | cons j t =>
    cases t with
    | nil =>
      have hj : s.timerRef = some j := href j (by rw [hl]; exact List.mem_cons_self j [])
      rw [hj]
      simp
    | cons k t2 => rw [hl] at hlen; simp at hlen

/-- Starting a safety check under the timer invariant yields exactly one live
interval, the fresh one, with the ref pointing at it. -/
theorem triggerSafetyCheck_timers (s : AppState) (h : timerInv s) :
    (triggerSafetyCheck s).liveTimers = [s.nextTimerId] ∧
    (triggerSafetyCheck s).timerRef = some s.nextTimerId := by
  have h3 : (clearTimerRef { s with showSafetyCheck := true, countdown := 60 }).liveTimers = [] :=
    clearTimerRef_liveTimers_of_inv _ h
  constructor
  · show (clearTimerRef { s with showSafetyCheck := true, countdown := 60 }).nextTimerId ::
        (clearTimerRef { s with showSafetyCheck := true, countdown := 60 }).liveTimers = _
    rw [h3]
    rfl
  · rfl

/-- The timer invariant is preserved by starting a safety check. -/
theorem timerInv_triggerSafetyCheck (s : AppState) (h : timerInv s) :
    timerInv (triggerSafetyCheck s) := by
  obtain ⟨h1, h2⟩ := triggerSafetyCheck_timers s h
  refine ⟨by rw [h1]; simp, fun j hj => ?_⟩
  rw [h1] at hj
  simp at hj
  subst hj
  exact h2

/-- The timer invariant is preserved by clearing the referenced interval. -/
theorem timerInv_clearTimerRef (s : AppState) (h : timerInv s) :
    timerInv (clearTimerRef s) := by
  have h3 := clearTimerRef_liveTimers_of_inv s h
  exact ⟨by rw [h3]; simp, fun j hj => absurd (h3 ▸ hj) (List.not_mem_nil j)⟩

/-- The timer invariant is preserved by a tick body. -/
theorem timerInv_tickBody (env : Env) (s : AppState) (h : timerInv s) :
    timerInv (tickBody env s) := by
  unfold tickBody
  split
  · exact timerInv_clearTimerRef s h
  · exact h

/-- The timer invariant is preserved by every event: the session never has
two concurrently live tick sources. -/
theorem timerInv_step (env : Env) (s : AppState) (e : Event) (h : timerInv s) :
    timerInv (step env s e) := by
  cases e with
  | motion now ev =>
    show timerInv (handleMotion now ev s)
    cases hm : s.isMonitoring with
    | false => simp [handleMotion, hm]; exact h
    | true =>
      cases hacc : ev.accelerationIncludingGravity with
      | none => simp [handleMotion, hm, hacc]; exact h
      | some acc =>
        by_cases hc : magnitudeSq (acc.x.getD 0) (acc.y.getD 0) (acc.z.getD 0) > 625 ∧
            now - s.lastJerk > 5000
        · have heq : handleMotion now ev s =
              triggerSafetyCheck { s with lastJerk := now, jerkLog := now :: s.jerkLog } := by
            simp [handleMotion, hm, hacc, hc]
          rw [heq]
          have h2 : timerInv { s with lastJerk := now, jerkLog := now :: s.jerkLog } :=
            ⟨h.1, h.2⟩
          exact timerInv_triggerSafetyCheck _ h2
        · have heq : handleMotion now ev s = s := by
            simp [handleMotion, hm, hacc, hc]
          rw [heq]
          exact h
  | tick id =>
    show timerInv (if id ∈ s.liveTimers then tickBody env s else s)
    split
    · exact timerInv_tickBody env s h
    · exact h
  | markSafe =>
    show timerInv (if s.showSafetyCheck then handleIAmSafe s else s)
    split
    · exact timerInv_clearTimerRef _ h
    · exact h
  | forceTrigger =>
    show timerInv (if s.showSafetyCheck then triggerEmergency env s else s)
    split
    · exact h
    · exact h
  | simulate => exact timerInv_triggerSafetyCheck s h
  | geoResolved lat lng => exact h
  | startMonitoring => exact h

/-- Running an event list decomposes over append. -/
theorem run_append (env : Env) (l1 l2 : List Event) :
    ∀ s : AppState, run env s (l1 ++ l2) = run env (run env s l1) l2 := by
  induction l1 with
  | nil => intro s; rfl
  | cons e es ih => intro s; exact ih (step env s e)

/-- While the countdown is running with value above `k`, `k` ticks of the
live interval just decrement the counter `k` times. -/
theorem run_ticks (env : Env) :
    ∀ (k : ℕ) (s : AppState) (i : ℕ), s.showSafetyCheck = true →
      s.liveTimers = [i] → s.timerRef = some i → k < s.countdown →
      run env s (List.replicate k (.tick i)) = { s with countdown := s.countdown - k }
  | 0, s, i, _, _, _, _ => by simp [run]
  | (k+1), s, i, hshow, hlive, href, hk => by
    rw [List.replicate_succ]
    show run env (step env s (.tick i)) (List.replicate k (.tick i)) = _
    have hmem : i ∈ s.liveTimers := by rw [hlive]; exact List.mem_cons_self i []
    have hgt : ¬(s.countdown ≤ 1) := by omega
    have hstep : step env s (.tick i) = { s with countdown := s.countdown - 1 } := by
      simp [step, hmem, tickBody, hgt]
    rw [hstep]
    rw [run_ticks env k { s with countdown := s.countdown - 1 } i hshow hlive href (by simp; omega)]
    have hc : ({ s with countdown := s.countdown - 1 } : AppState).countdown - k =
        s.countdown - (k + 1) := by simp; omega
    rw [hc]

/-- A tick of an interval that is not live is a no-op. -/
theorem step_tick_noop (env : Env) (s : AppState) (id : ℕ)
    (h : s.liveTimers = []) : step env s (.tick id) = s := by
  simp [step, h]

/-- With no live interval, any sequence of ticks is a no-op. -/
theorem run_ticks_noop (env : Env) :
    ∀ (ids : List ℕ) (s : AppState), s.liveTimers = [] →
      run env s (ids.map Event.tick) = s
  | [], _, _ => rfl
  | id :: ids, s, h => by
    simp only [List.map_cons]
    show run env (step env s (.tick id)) (ids.map Event.tick) = s
    rw [step_tick_noop env s id h]
    exact run_ticks_noop env ids s h

/-- Comparing `Real.sqrt` of a rational against 25 is the same as comparing
the radicand against 625; this ties the embedded squared-magnitude check to
the source's `Math.sqrt(...) > 25`. -/
theorem sqrt_gt_25_iff (q : ℚ) : 25 < Real.sqrt (q : ℝ) ↔ 625 < q := by
  rw [Real.lt_sqrt (by norm_num : (0 : ℝ) ≤ 25)]
  constructor
  · intro h
    have h2 : (625 : ℝ) < (q : ℝ) := by norm_num at h; exact h
    exact_mod_cast h2
  · intro h
    have h2 : (625 : ℝ) < (q : ℝ) := by exact_mod_cast h
    norm_num
    exact h2

/-- Claim C9: a motion event whose `accelerationIncludingGravity` is absent
leaves the state untouched and never fires, and absent individual components
are read as 0, so the detector is total over all sensor inputs. -/
theorem c9_null_acceleration_total :
    (∀ (now : ℤ) (s : AppState),
      handleMotion now { accelerationIncludingGravity := none } s = s) ∧
    (∀ (now : ℤ) (s : AppState) (ox oy oz : Option ℚ),
      handleMotion now
          { accelerationIncludingGravity := some { x := ox, y := oy, z := oz } } s =
        handleMotion now
          { accelerationIncludingGravity :=
              some { x := some (ox.getD 0), y := some (oy.getD 0),
                     z := some (oz.getD 0) } } s) := by
  constructor
  · intro now s
    cases h : s.isMonitoring <;> simp [handleMotion, h]
  · intro now s ox oy oz
    cases h : s.isMonitoring <;> simp [handleMotion, h]

/-- Claim C10: `handleIAmSafe` does not reset the `lastJerk` cooldown stamp,
so after cancelling a countdown, a motion sample within 5000 ms of the jerk
that started it cannot start a new safety check, whatever its magnitude. -/
theorem c10_markSafe_keeps_cooldown (env : Env) (s : AppState) (now : ℤ)
    (ev : MotionEvent) :
    (handleIAmSafe s).lastJerk = s.lastJerk ∧
    (now - s.lastJerk ≤ 5000 →
      step env (handleIAmSafe s) (.motion now ev) = handleIAmSafe s) := by
  refine ⟨rfl, fun hcool => ?_⟩
  show handleMotion now ev (handleIAmSafe s) = handleIAmSafe s
  have hlast : (handleIAmSafe s).lastJerk = s.lastJerk := rfl
  cases hm : (handleIAmSafe s).isMonitoring with
  | false => simp [handleMotion, hm]
  | true =>
    cases hacc : ev.accelerationIncludingGravity with
    | none => simp [handleMotion, hm, hacc]
    | some acc =>
      have hnot : ¬(magnitudeSq (acc.x.getD 0) (acc.y.getD 0) (acc.z.getD 0) > 625 ∧
          5000 < now - (handleIAmSafe s).lastJerk) := by
        rintro ⟨-, h2⟩
        rw [hlast] at h2
        omega
      simp [handleMotion, hm, hacc, hnot]

/-- Claim C10 witness: with a countdown started by a jerk at t = 10000 and
then cancelled, a huge sample at t = 14000 (4000 ms later) changes nothing. -/
theorem c10_markSafe_keeps_cooldown_witness :
    (handleIAmSafe (run envAsha initState
        [.startMonitoring, .motion 10000 (jerkEv 30)])).lastJerk =
      (run envAsha initState
        [.startMonitoring, .motion 10000 (jerkEv 30)]).lastJerk ∧
    step envAsha
        (handleIAmSafe (run envAsha initState
          [.startMonitoring, .motion 10000 (jerkEv 30)]))
        (.motion 14000 (jerkEv 100)) =
      handleIAmSafe (run envAsha initState
        [.startMonitoring, .motion 10000 (jerkEv 30)]) := by
  have h := c10_markSafe_keeps_cooldown envAsha
    (run envAsha initState [.startMonitoring, .motion 10000 (jerkEv 30)])
    14000 (jerkEv 100)
  exact ⟨h.1, h.2 (by decide)⟩

/-- Claim C6: while monitoring, a motion sample fires the jerk detector (the
fire log grows) iff `sqrt (ax² + ay² + az²) > 25` and more than 5000 ms have
passed since `lastJerk`; a magnitude of exactly 25 (e.g. the sample
(15, 20, 0)) never fires, and a magnitude of 25.0001 fires once the cooldown
holds. -/
theorem c6_jerk_threshold (s t : AppState) (now : ℤ) (ax ay az : ℚ)
    (hm : s.isMonitoring = true) :
    ((handleMotion now
        { accelerationIncludingGravity :=
            some { x := some ax, y := some ay, z := some az } } s).jerkLog.length =
      s.jerkLog.length + 1 ↔
      (25 < Real.sqrt ((magnitudeSq ax ay az : ℚ) : ℝ) ∧
        5000 < now - s.lastJerk)) ∧
    (handleMotion now
        { accelerationIncludingGravity :=
            some { x := some 15, y := some 20, z := some 0 } } t = t) ∧
    (5000 < now - s.lastJerk →
      (handleMotion now
          { accelerationIncludingGravity :=
              some { x := some (250001/10000 : ℚ), y := some 0, z := some 0 } }
          s).jerkLog = now :: s.jerkLog) := by
  refine ⟨?_, ?_, ?_⟩
  · by_cases hc : magnitudeSq ax ay az > 625 ∧ 5000 < now - s.lastJerk
    · have hfire : handleMotion now
          { accelerationIncludingGravity :=
              some { x := some ax, y := some ay, z := some az } } s =
          triggerSafetyCheck
            { s with lastJerk := now, jerkLog := now :: s.jerkLog } := by
        simp [handleMotion, hm, hc]
      rw [hfire]
      have hlog : (triggerSafetyCheck
          { s with lastJerk := now, jerkLog := now :: s.jerkLog }).jerkLog =
          now :: s.jerkLog := rfl
      rw [hlog]
      simp only [List.length_cons, true_iff]
      exact ⟨(sqrt_gt_25_iff _).mpr hc.1, hc.2⟩
    · have hskip : handleMotion now
          { accelerationIncludingGravity :=
              some { x := some ax, y := some ay, z := some az } } s = s := by
        simp [handleMotion, hm, hc]
      rw [hskip]
      constructor
      · intro h
        omega
      · rintro ⟨h1, h2⟩
        exact absurd ⟨(sqrt_gt_25_iff _).mp h1, h2⟩ hc
  · have hmag : ¬(magnitudeSq 15 20 0 > 625 ∧ 5000 < now - t.lastJerk) := by
      rintro ⟨h1, -⟩
      norm_num [magnitudeSq] at h1
    cases ht : t.isMonitoring <;> simp [handleMotion, ht, hmag]
  · intro hcool
    have hc : magnitudeSq (250001/10000 : ℚ) 0 0 > 625 ∧ 5000 < now - s.lastJerk := by
      refine ⟨?_, hcool⟩
      norm_num [magnitudeSq]
    simp [handleMotion, hm, hc]
    rfl

/-- Claim C6 witness: at t = 6000 with `lastJerk = 0`, the 25.0001-magnitude
sample fires (the log becomes [6000]) and the exactly-25 sample is ignored. -/
theorem c6_jerk_threshold_witness :
    (handleMotion 6000
        { accelerationIncludingGravity :=
            some { x := some (250001/10000 : ℚ), y := some 0, z := some 0 } }
        { initState with isMonitoring := true }).jerkLog =
      6000 :: ({ initState with isMonitoring := true } : AppState).jerkLog ∧
    handleMotion 6000
        { accelerationIncludingGravity :=
            some { x := some 15, y := some 20, z := some 0 } } initState =
      initState := by
  have h := c6_jerk_threshold { initState with isMonitoring := true }
    initState 6000 30 0 0 rfl
  exact ⟨h.2.2 (by decide), h.2.1⟩

set_option maxRecDepth 8000 in
/-- Claim C1 (code bug evaluation): pressing TRIGGER NOW while Counting
leaves the tick source live (`triggerEmergency` never clears the interval),
and 60 leaked ticks later the countdown expires and invokes the escalation a
second time: two incidents are created for one countdown instance. -/
theorem c1_forceTrigger_leaks_timer :
    forceTriggerMid.liveTimers = [0] ∧ status forceTriggerMid = .Expired ∧
    forceTriggerMid.escalations = 1 ∧
    forceTriggerRun.escalations = 2 ∧ forceTriggerRun.incidents.length = 2 := by
  decide

/-- Claim C2 counterexample: a countdown started by a jerk at t = 10000 and
ticked down to 54 is hit by a second JerkEvent at t = 16000 (cooldown
elapsed); the code does not ignore it — `remainingSeconds` jumps back to
60, refuting "leaves remainingSeconds unchanged". -/
theorem c2_counterexample :
    status reentryMid = .Counting ∧ reentryMid.countdown = 54 ∧
    reentryAfter.countdown = 60 ∧ reentryAfter.countdown ≠ reentryMid.countdown := by
  decide

/-- Claim C2 (amended): while Counting, a second JerkEvent that passes the
5000 ms cooldown is not ignored: it restarts the countdown
(`remainingSeconds` is reset to 60 and the state stays Counting), but it
never spawns a second concurrent tick source — the previous interval is
cancelled before the fresh one starts, so at most one interval is live —
and no escalation occurs at that point. -/
theorem c2_reentry_restarts (env : Env) (s : AppState) (now : ℤ) (ax ay az : ℚ)
    (hm : s.isMonitoring = true) (hshow : s.showSafetyCheck = true)
    (hinv : timerInv s) (hmag : magnitudeSq ax ay az > 625)
    (hcool : now - s.lastJerk > 5000) :
    (handleMotion now
        { accelerationIncludingGravity :=
            some { x := some ax, y := some ay, z := some az } } s).countdown = 60 ∧
    (handleMotion now
        { accelerationIncludingGravity :=
            some { x := some ax, y := some ay, z := some az } } s).showSafetyCheck = true ∧
    (handleMotion now
        { accelerationIncludingGravity :=
            some { x := some ax, y := some ay, z := some az } } s).escalations =
      s.escalations ∧
    (handleMotion now
        { accelerationIncludingGravity :=
            some { x := some ax, y := some ay, z := some az } } s).liveTimers.length ≤ 1 := by
  have hfire : handleMotion now
      { accelerationIncludingGravity :=
          some { x := some ax, y := some ay, z := some az } } s =
      triggerSafetyCheck { s with lastJerk := now, jerkLog := now :: s.jerkLog } := by
    simp [handleMotion, hm, hmag, hcool]
  rw [hfire]
  have h2 : timerInv { s with lastJerk := now, jerkLog := now :: s.jerkLog } :=
    ⟨hinv.1, hinv.2⟩
  exact ⟨rfl, rfl, rfl, (timerInv_triggerSafetyCheck _ h2).1⟩

/-- Claim C2 witness: the amended behavior at the concrete re-entry run. -/
theorem c2_reentry_restarts_witness :
    (handleMotion 16000
        { accelerationIncludingGravity :=
            some { x := some 30, y := some 0, z := some 0 } } reentryMid).countdown = 60 ∧
    (handleMotion 16000
        { accelerationIncludingGravity :=
            some { x := some 30, y := some 0, z := some 0 } } reentryMid).showSafetyCheck =
      true ∧
    (handleMotion 16000
        { accelerationIncludingGravity :=
            some { x := some 30, y := some 0, z := some 0 } } reentryMid).escalations =
      reentryMid.escalations ∧
    (handleMotion 16000
        { accelerationIncludingGravity :=
            some { x := some 30, y := some 0, z := some 0 } } reentryMid).liveTimers.length ≤
      1 := by
  exact c2_reentry_restarts envAsha reentryMid 16000 30 0 0 (by decide) (by decide)
    (by decide) (by decide) (by decide)

/-- Claim C3: from Counting with `remainingSeconds = 60` and one live
interval, each of the first 59 ticks decrements the counter by exactly one
(after `k ≤ 59` ticks it reads `60 - k`, still Counting, no escalation); the
60th tick leaves Counting for Expired, invokes the escalation exactly once,
and cancels the tick source. -/
theorem c3_countdown_expiry (env : Env) (s : AppState) (i : ℕ)
    (hshow : s.showSafetyCheck = true) (hlive : s.liveTimers = [i])
    (href : s.timerRef = some i) (hcount : s.countdown = 60) :
    (∀ k, k ≤ 59 →
      (run env s (List.replicate k (.tick i))).countdown = 60 - k ∧
      status (run env s (List.replicate k (.tick i))) = .Counting ∧
      (run env s (List.replicate k (.tick i))).escalations = s.escalations) ∧
    status (run env s (List.replicate 60 (.tick i))) = .Expired ∧
    (run env s (List.replicate 60 (.tick i))).escalations = s.escalations + 1 ∧
    (run env s (List.replicate 60 (.tick i))).liveTimers = [] := by
  have hrun : ∀ k, k ≤ 59 →
      run env s (List.replicate k (.tick i)) = { s with countdown := s.countdown - k } :=
    fun k hk => run_ticks env k s i hshow hlive href (by omega)
  have h59 := hrun 59 (by omega)
  have hsplit : List.replicate 60 (Event.tick i) =
      List.replicate 59 (Event.tick i) ++ [Event.tick i] := by
    rw [← List.replicate_succ']
  have hmem : i ∈ ({ s with countdown := s.countdown - 59 } : AppState).liveTimers := by
    show i ∈ s.liveTimers
    rw [hlive]
    exact List.mem_cons_self i []
  have hle : ({ s with countdown := s.countdown - 59 } : AppState).countdown ≤ 1 := by
    simp
    omega
  have h60 : run env s (List.replicate 60 (.tick i)) =
      { triggerEmergency env (clearTimerRef { s with countdown := s.countdown - 59 }) with
          countdown := 0 } := by
    rw [hsplit, run_append, h59]
    show step env { s with countdown := s.countdown - 59 } (.tick i) = _
    simp [step, hmem, tickBody, hle]
  refine ⟨fun k hk => ?_, ?_, ?_, ?_⟩
  · rw [hrun k hk]
    refine ⟨by simp [hcount], ?_, rfl⟩
    show status { s with countdown := s.countdown - k } = .Counting
    simp [status, hshow]
  · rw [h60]
    simp [status, triggerEmergency]
  · rw [h60]
    rfl
  · rw [h60]
    show (clearTimerRef { s with countdown := s.countdown - 59 }).liveTimers = []
    exact clearTimerRef_liveTimers_of_inv _
      ⟨by show s.liveTimers.length ≤ 1; rw [hlive]; simp,
       by show ∀ j ∈ s.liveTimers, s.timerRef = some j
          intro j hj
          rw [hlive] at hj
          simp at hj
          subst hj
          exact href⟩

/-- Claim C3 witness: the concrete countdown started from the initial state. -/
theorem c3_countdown_expiry_witness :
    (run envAsha (triggerSafetyCheck initState)
      (List.replicate 59 (.tick 0))).countdown = 60 - 59 ∧
    status (run envAsha (triggerSafetyCheck initState)
      (List.replicate 59 (.tick 0))) = .Counting ∧
    (run envAsha (triggerSafetyCheck initState)
      (List.replicate 59 (.tick 0))).escalations =
      (triggerSafetyCheck initState).escalations ∧
    status (run envAsha (triggerSafetyCheck initState)
      (List.replicate 60 (.tick 0))) = .Expired ∧
    (run envAsha (triggerSafetyCheck initState)
      (List.replicate 60 (.tick 0))).escalations =
      (triggerSafetyCheck initState).escalations + 1 ∧
    (run envAsha (triggerSafetyCheck initState)
      (List.replicate 60 (.tick 0))).liveTimers = [] := by
  have h := c3_countdown_expiry envAsha (triggerSafetyCheck initState) 0
    rfl rfl rfl rfl
  have h1 := h.1 59 (by omega)
  exact ⟨h1.1, h1.2.1, h1.2.2, h.2.1, h.2.2.1, h.2.2.2⟩

/-- Claim C4: while Counting with any `remainingSeconds` in [1, 60] (and no
escalation yet), pressing I AM SAFE moves the countdown to Idle, cancels the
pending tick source, and no sequence of later ticks can ever invoke the
escalation for this instance. -/
theorem c4_markSafe_idle (env : Env) (s : AppState)
    (hshow : s.showSafetyCheck = true) (hemt : s.emergencyTriggered = false)
    (h1 : 1 ≤ s.countdown) (h60 : s.countdown ≤ 60) (hinv : timerInv s) :
    status (step env s .markSafe) = .Idle ∧
    (step env s .markSafe).liveTimers = [] ∧
    (step env s .markSafe).escalations = s.escalations ∧
    ∀ ids : List ℕ,
      run env (step env s .markSafe) (ids.map Event.tick) = step env s .markSafe := by
  have hms : step env s .markSafe = handleIAmSafe s := by simp [step, hshow]
  have hinv2 : timerInv { s with showSafetyCheck := false } := ⟨hinv.1, hinv.2⟩
  have hlt : (handleIAmSafe s).liveTimers = [] :=
    clearTimerRef_liveTimers_of_inv _ hinv2
  rw [hms]
  refine ⟨?_, hlt, rfl, fun ids => run_ticks_noop env ids _ hlt⟩
  show status (clearTimerRef { s with showSafetyCheck := false }) = .Idle
  simp [status, clearTimerRef, hemt]

/-- Claim C4 witness: cancelling the concrete countdown and then delivering
two stray ticks changes nothing and never escalates. -/
theorem c4_markSafe_idle_witness :
    status (step envAsha (triggerSafetyCheck initState) .markSafe) = .Idle ∧
    (step envAsha (triggerSafetyCheck initState) .markSafe).liveTimers = [] ∧
    (step envAsha (triggerSafetyCheck initState) .markSafe).escalations =
      (triggerSafetyCheck initState).escalations ∧
    run envAsha (step envAsha (triggerSafetyCheck initState) .markSafe)
        ([0, 1].map Event.tick) =
      step envAsha (triggerSafetyCheck initState) .markSafe := by
  have h := c4_markSafe_idle envAsha (triggerSafetyCheck initState)
    rfl rfl (by decide) (by decide) (by decide)
  exact ⟨h.1, h.2.1, h.2.2.1, h.2.2.2 [0, 1]⟩

set_option maxRecDepth 8000 in
/-- Claim C5 counterexample: in the spec's end-to-end scenario (lat 12.9,
lng 77.6, lookup text "3 hospitals found" with a City Hospital link, single
contact Asha/9999999999, and even with the user named Asha), the single
created incident's details do NOT contain the substring "City Hospital":
only the lookup text is concatenated into details, never the link titles. -/
theorem c5_counterexample :
    ashaRun.incidents.map (fun i => strContains i.details "City Hospital") = [false] := by
  decide

set_option maxRecDepth 8000 in
/-- Claim C5 (amended): the scenario produces exactly one incident-store
create call, with status PENDING, whose details contain
"ASHA IS IN EMERGENCY" — because the user's own name is Asha (the message
embeds the upper-cased user name, not the contact's name) — and contain the
hospital-lookup text "3 hospitals found" (link titles such as
"City Hospital" are not part of details), and exactly one formatted alert
targets phone 9999999999. -/
theorem c5_amended_run :
    ashaRun.escalations = 1 ∧
    ashaRun.incidents.map (fun i =>
      (i.status, strContains i.details "ASHA IS IN EMERGENCY",
        strContains i.details "3 hospitals found")) = [("PENDING", true, true)] ∧
    ashaRun.smsSent.map (fun m => m.toPhone) = ["9999999999"] := by
  decide

/-- The jerk-detector invariant is preserved by every event: the fire log
stays strictly descending with gaps above 5000 ms, bounded by `lastJerk`. -/
theorem jerkInv_step (env : Env) (s : AppState) (e : Event) (h : jerkInv s) :
    jerkInv (step env s e) := by
  cases e with
  | motion now ev =>
    show jerkInv (handleMotion now ev s)
    cases hm : s.isMonitoring with
    | false => simp only [handleMotion, hm, Bool.false_eq_true, if_false]; exact h
    | true =>
      cases hacc : ev.accelerationIncludingGravity with
      | none => simp [handleMotion, hm, hacc]; exact h
      | some acc =>
        by_cases hc : magnitudeSq (acc.x.getD 0) (acc.y.getD 0) (acc.z.getD 0) > 625 ∧
            now - s.lastJerk > 5000
        · have heq : handleMotion now ev s =
              triggerSafetyCheck { s with lastJerk := now, jerkLog := now :: s.jerkLog } := by
            simp [handleMotion, hm, hacc, hc]
          rw [heq]
          obtain ⟨hp, hb⟩ := h
          have h5 : now - s.lastJerk > 5000 := hc.2
          refine ⟨?_, ?_⟩
          · show List.Pairwise (fun a b => 5000 < a - b) (now :: s.jerkLog)
            refine List.Pairwise.cons (fun b hbm => ?_) hp
            have := hb b hbm
            omega
          · show ∀ x ∈ now :: s.jerkLog, x ≤ now
            intro x hx
            rcases List.mem_cons.mp hx with h1 | h2
            · rw [h1]
            · have := hb x h2
              omega
        · have heq : handleMotion now ev s = s := by
            simp [handleMotion, hm, hacc, hc]
          rw [heq]
          exact h
  | tick id =>
    show jerkInv (if id ∈ s.liveTimers then tickBody env s else s)
    split
    · unfold tickBody
      split
      · exact h
      · exact h
    · exact h
  | markSafe =>
    show jerkInv (if s.showSafetyCheck then handleIAmSafe s else s)
    split
    · exact h
    · exact h
  | forceTrigger =>
    show jerkInv (if s.showSafetyCheck then triggerEmergency env s else s)
    split
    · exact h
    · exact h
  | simulate => exact h
  | geoResolved lat lng => exact h
  | startMonitoring => exact h

/-- The jerk-detector invariant is preserved by whole runs. -/
theorem jerkInv_run (env : Env) :
    ∀ (events : List Event) (s : AppState), jerkInv s → jerkInv (run env s events)
  | [], _, h => h
  | e :: es, s, h => jerkInv_run env es (step env s e) (jerkInv_step env s e h)

/-- Claim C7: over any event sequence from the initial state (any sampling
rate, any magnitudes), the jerk detector fires at most once per rolling
5000 ms window: any two distinct logged fire times are more than 5000 ms
apart. -/
theorem c7_cooldown_window (env : Env) (events : List Event) (a b : ℤ)
    (ha : a ∈ (run env initState events).jerkLog)
    (hb : b ∈ (run env initState events).jerkLog) (hab : a ≠ b) :
    5000 < |a - b| := by
  have hinit : jerkInv initState := by
    refine ⟨List.Pairwise.nil, fun x hx => ?_⟩
    exact absurd hx (List.not_mem_nil x)
  have hinv := jerkInv_run env events initState hinit
  have hp : List.Pairwise (fun x y : ℤ => 5000 < |x - y|)
      (run env initState events).jerkLog :=
    hinv.1.imp fun hxy => lt_of_lt_of_le hxy (le_abs_self _)
  have hsym : Symmetric fun x y : ℤ => 5000 < |x - y| := by
    intro x y hxy
    rwa [abs_sub_comm]
  exact hp.forall hsym ha hb hab

/-- Claim C7 witness: two fires 10000 ms apart in a concrete run are indeed
more than 5000 ms apart. -/
theorem c7_cooldown_window_witness :
    (20000 : ℤ) ∈ (run envAsha initState
      [.startMonitoring, .motion 10000 (jerkEv 30),
        .motion 20000 (jerkEv 30)]).jerkLog ∧
    (10000 : ℤ) ∈ (run envAsha initState
      [.startMonitoring, .motion 10000 (jerkEv 30),
        .motion 20000 (jerkEv 30)]).jerkLog ∧
    5000 < |(20000 : ℤ) - 10000| := by
  refine ⟨by decide, by decide, ?_⟩
  exact c7_cooldown_window envAsha
    [.startMonitoring, .motion 10000 (jerkEv 30), .motion 20000 (jerkEv 30)]
    20000 10000 (by decide) (by decide) (by decide)

/-- Claim C8: the hospital lookup never raises — an internal failure is
mapped to the exact fallback value — and an escalation run with the failed
lookup still completes: exactly one more incident is persisted, the hospital
section is empty (no links, no ambulance alerts), and the incident's details
end with the fallback text. -/
theorem c8_lookup_fallback (env : Env) (s : AppState)
    (hlk : env.lookup = findNearbyHospitals none) :
    findNearbyHospitals none =
      { text := "Could not retrieve hospital information due to an error.",
        links := [] } ∧
    (triggerEmergency env s).escalations = s.escalations + 1 ∧
    (triggerEmergency env s).incidents.length = s.incidents.length + 1 ∧
    (triggerEmergency env s).hospitalLinks = [] ∧
    (triggerEmergency env s).ambulanceAlerts = s.ambulanceAlerts ∧
    ∃ p, ((triggerEmergency env s).incidents.getLast?).map (fun i => i.details) =
      some (p ++ "Could not retrieve hospital information due to an error.") := by
  have hlinks : env.lookup.links = [] := by rw [hlk]; rfl
  have htext : env.lookup.text =
      "Could not retrieve hospital information due to an error." := by rw [hlk]; rfl
  refine ⟨rfl, rfl, ?_, ?_, ?_, ?_⟩
  · show (s.incidents ++ [_]).length = s.incidents.length + 1
    simp
  · show env.lookup.links = []
    exact hlinks
  · show s.ambulanceAlerts ++ env.lookup.links.map _ = s.ambulanceAlerts
    rw [hlinks]
    simp
  · refine ⟨"Emergency triggered for " ++ env.userName ++ ". " ++
      emergencyMessage env.userName (s.location.getD env.geoFix).1
        (s.location.getD env.geoFix).2 ++ ". Nearby hospitals: ", ?_⟩
    have hinc : (triggerEmergency env s).incidents = s.incidents ++
        [{ location_lat := (s.location.getD env.geoFix).1
           location_lng := (s.location.getD env.geoFix).2
           status := "PENDING"
           details := incidentDetails env.userName (s.location.getD env.geoFix).1
             (s.location.getD env.geoFix).2 env.lookup.text }] := rfl
    rw [hinc, List.getLast?_concat, Option.map_some']
    rw [htext]
    rfl

/-- Claim C8 witness: the concrete failed-lookup escalation from the initial
state. -/
theorem c8_lookup_fallback_witness :
    envLookupFail.lookup = findNearbyHospitals none ∧
    (triggerEmergency envLookupFail initState).incidents.length =
      initState.incidents.length + 1 ∧
    (triggerEmergency envLookupFail initState).hospitalLinks = [] ∧
    (triggerEmergency envLookupFail initState).ambulanceAlerts =
      initState.ambulanceAlerts := by
  have h := c8_lookup_fallback envLookupFail initState rfl
  exact ⟨rfl, h.2.2.1, h.2.2.2.1, h.2.2.2.2.1⟩

end RapidRescue
